import Mathlib

/-
Verification of the kasocki per-socket consumer session (lib/Kasocki.js)
against its natural-language specification.

The Kasocki class bridges a Kafka consumer to a socket.io connection.
We embed the session state, the socket-event handlers (subscribe, filter,
consume, start, stop, disconnect), the handler wrapper, the kafka
configuration merge, and the push loop as pure Lean functions, and prove
the specified properties about them.
-/

namespace Kasocki

/-- Error kinds of the kasocki error taxonomy (lib/error.js names,
TopicNotAvailableError carries the offending topic name). -/
inductive KErrKind where
  | kasocki
  | invalidAssignment
  | topicNotAvailable (topic : String)
  | notSubscribed
  | alreadySubscribed
  | alreadyStarted
  | alreadyClosing
  | invalidFilter
  | deserialization
  | kafka (code : Int)
deriving DecidableEq, Repr

/-- An error value as it travels through the handler pipeline.
The socket and socketEvent fields are attached by Kasocki._error, which
also deletes the stack trace before the error is sent to the client. -/
structure KErr where
  kind : KErrKind
  socket : Option String
  socketEvent : Option String
  hasStack : Bool
deriving DecidableEq, Repr

/-- Builds a fresh error as thrown inside a handler: no socket annotation
yet, stack trace present. -/
def KErr.raise (k : KErrKind) : KErr :=
  ⟨k, none, none, true⟩

/-- Kasocki._error: annotates an error with the socket name and the extra
socketEvent field, and deletes the stack trace, producing the serialized
form that is sent to the client. -/
def errorForClient (name socketEvent : String) (e : KErr) : KErr :=
  ⟨e.kind, some name, some socketEvent, false⟩

/-- A kafka configuration value: rdkafka configs are strings or booleans. -/
inductive CfgVal where
  | str (s : String)
  | bool (b : Bool)
deriving DecidableEq, Repr

/-- A kafka configuration object, as a partial map from config keys. -/
def KafkaConfig := String → Option CfgVal

/-- Object.assign(base, extra): keys of extra win over keys of base. -/
def objAssign (base extra : KafkaConfig) : KafkaConfig :=
  fun k =>
    match extra k with
    | some v => some v
    | none => base k

/-- The defaultKafkaConfig object built in the Kasocki constructor:
metadata.broker.list and client.id defaults. -/
def defaultKafkaConfig (name : String) : KafkaConfig :=
  fun k =>
    if k = "metadata.broker.list" then some (.str "localhost:9092")
    else if k = "client.id" then some (.str ("kasocki-" ++ name))
    else none

/-- The mandatoryKafkaConfig object built in the Kasocki constructor:
enable.auto.commit and group.id are forced, not overridable. -/
def mandatoryKafkaConfig (name : String) : KafkaConfig :=
  fun k =>
    if k = "enable.auto.commit" then some (.bool false)
    else if k = "group.id" then some (.str ("kasocki-" ++ name))
    else none

/-- The constructor merge: Object.assign(defaultKafkaConfig,
options.kafkaConfig, mandatoryKafkaConfig).  Provided configs win over
defaults, and mandatory configs win over all. -/
def effectiveKafkaConfig (name : String) (userConfig : KafkaConfig) : KafkaConfig :=
  objAssign (objAssign (defaultKafkaConfig name) userConfig) (mandatoryKafkaConfig name)

/-- A JSON-shaped value, as carried in socket.io event arguments and in
deserialized kafka messages. -/
inductive JVal where
  | null
  | bool (b : Bool)
  | num (n : Int)
  | str (s : String)
  | arr (elems : List JVal)
  | obj (fields : List (String × JVal))
deriving Repr

/-- True for JSON scalars: null, booleans, numbers, strings. -/
def JVal.isScalar : JVal → Bool
  | .null => true
  | .bool _ => true
  | .num _ => true
  | .str _ => true
  | .arr _ => false
  | .obj _ => false

/-- Strict equality of JSON scalars (type plus value); false whenever
either side is not a scalar. -/
def scalarEq : JVal → JVal → Bool
  | .null, .null => true
  | .bool a, .bool b => a = b
  | .num a, .num b => a = b
  | .str a, .str b => a = b
  | _, _ => false

/-- Truthiness of a JSON value under JavaScript coercion rules, used by
the filter handler guard (if (!filters)) and by _match on the
message-or-false result. -/
def JVal.truthy : JVal → Bool
  | .null => false
  | .bool b => b
  | .num n => n ≠ 0
  | .str s => s ≠ ""
  | .arr _ => true
  | .obj _ => true

/-- Association lookup in a JSON object, first binding wins. -/
def getField : List (String × JVal) → String → Option JVal
  | [], _ => none
  | (k, v) :: rest, s => if k = s then some v else getField rest s

/-- Splits a character list at dots, accumulating the current segment. -/
def splitSegsAux : List Char → List Char → List String
  | [], acc => [String.mk acc.reverse]
  | c :: rest, acc =>
    if c = '.' then String.mk acc.reverse :: splitSegsAux rest []
    else splitSegsAux rest (c :: acc)

/-- Splits a dotted path such as a.b.c into its segments. -/
def splitDotted (s : String) : List String :=
  splitSegsAux s.data []

/-- Modelled from the spec: dotted-path resolution of the matcher built
by objectutils.createMatcherFunctionWithFilters (lib/objectutils.js is
not under src/).  Descends the path segments through nested objects;
a missing intermediate or final key yields none. -/
def resolveSegs : JVal → List String → Option JVal
  | v, [] => some v
  | .obj fields, s :: rest =>
    match getField fields s with
    | some v => resolveSegs v rest
    | none => none
  | _, _ :: _ => none

/-- Modelled from the spec: resolves a dotted path such as a.b.c in a
message (lib/objectutils.js is not under src/). -/
def resolvePath (m : JVal) (p : String) : Option JVal :=
  resolveSegs m (splitDotted p)

/-- Modelled from the spec: whether a message value satisfies one filter
criterion (lib/objectutils.js is not under src/).  Scalar criterion vs
scalar value is strict equality; sequence criterion vs scalar value is
membership; sequence criterion vs sequence value is non-strict subset;
scalar criterion vs sequence value holds iff some element satisfies it.
Regex-literal criteria are outside this model; no claim depends on them. -/
def satisfiesCriterion (v c : JVal) : Bool :=
  match c, v with
  | .arr cs, .arr vs => cs.all (fun ce => vs.any (fun ve => scalarEq ve ce))
  | .arr cs, _ => cs.any (fun ce => scalarEq v ce)
  | _, .arr vs => vs.any (fun ve => scalarEq ve c)
  | _, _ => scalarEq v c

/-- A filter specification: a mapping from dotted paths to criteria. -/
def FilterSpec := List (String × JVal)

/-- Modelled from the spec: validity of one filter entry
(lib/objectutils.js is not under src/).  The key is a non-empty dotted
path with no empty segments; the value is a scalar or a sequence of
scalars; nested mappings are invalid. -/
def validFilterEntry (p : String) (c : JVal) : Bool :=
  p ≠ "" && (splitDotted p).all (fun seg => seg ≠ "") &&
    (c.isScalar ||
      (match c with
       | .arr cs => cs.all JVal.isScalar
       | _ => false))

/-- A compiled matcher: the filters it was built from.  Its predicate is
matcherMatches below; the source keeps the filters reachable as
matcher.filters so they can be returned to the client. -/
structure Matcher where
  filters : List (String × JVal)
deriving Repr

/-- Modelled from the spec: the predicate of a compiled matcher
(lib/objectutils.js is not under src/).  A message matches iff for every
path-criterion entry the value resolved at the path satisfies the
criterion; a missing path fails the entry. -/
def Matcher.matches (mt : Matcher) (m : JVal) : Bool :=
  mt.filters.all (fun pc =>
    match resolvePath m pc.1 with
    | some v => satisfiesCriterion v pc.2
    | none => false)

/-- Modelled from the spec: objectutils.createMatcherFunctionWithFilters
(lib/objectutils.js is not under src/).  Given a filters argument it
either throws (modelled as Except.error) when the filter map is invalid,
or returns a compiled matcher. -/
def createMatcherFunctionWithFilters (filters : JVal) : Except Unit Matcher :=
  match filters with
  | .obj fields =>
    if fields.all (fun pc => validFilterEntry pc.1 pc.2) then
      .ok ⟨fields⟩
    else
      .error ()
  | _ => .error ()

/-- A topic-partition-offset assignment tuple. -/
structure Assignment where
  topic : String
  partition : Int
  offset : Int
deriving DecidableEq, Repr

/-- One element of a subscribe request array: either a topic name string
or an assignment tuple. -/
inductive SubscribeElem where
  | name (s : String)
  | tuple (a : Assignment)
deriving DecidableEq, Repr

/-- The argument of the subscribe socket event: a bare string or an
array of elements.  The source promotes a bare string to a one-element
array before validating. -/
inductive SubscribeArg where
  | str (s : String)
  | arr (l : List SubscribeElem)
deriving DecidableEq, Repr

/-- True when the element is a topic name string. -/
def SubscribeElem.isName : SubscribeElem → Bool
  | .name _ => true
  | .tuple _ => false

/-- The topic a subscribe element requests. -/
def SubscribeElem.topic : SubscribeElem → String
  | .name s => s
  | .tuple a => a.topic

/-- Modelled from the spec: utils.validateAssignments (lib/utils.js is
not under src/).  An empty sequence is rejected; mixed forms (some
strings, some tuples) are rejected; for tuple form the partition must be
a non-negative integer and the offset an integer that is at least -1
(-1 denotes latest, other negatives are invalid). -/
def validateAssignments (l : List SubscribeElem) : Bool :=
  !l.isEmpty &&
  (l.all SubscribeElem.isName || l.all (fun e => !e.isName)) &&
  l.all (fun e =>
    match e with
    | .name _ => true
    | .tuple a => a.partition ≥ 0 && a.offset ≥ -1)

/-- Metadata for one topic known to the broker: its partition ids. -/
structure TopicMetadata where
  name : String
  partitions : List Int
deriving DecidableEq, Repr

/-- Partition ids of a topic in the broker metadata. -/
def partitionsOf (metadata : List TopicMetadata) (t : String) : List Int :=
  match metadata.find? (fun tm => tm.name = t) with
  | some tm => tm.partitions
  | none => []

/-- Modelled from the spec: utils.buildAssignments (lib/utils.js is not
under src/).  Expands topic names to assignments covering every
partition in the broker metadata, starting at offset -1 (latest). -/
def buildAssignments (metadata : List TopicMetadata) (topics : List String) :
    List Assignment :=
  topics.flatMap (fun t => (partitionsOf metadata t).map (fun p => ⟨t, p, -1⟩))

/-- A raw record as returned by one broker poll. -/
structure KRecord where
  payload : String
deriving DecidableEq, Repr

/-- The outcome of one KafkaConsumer.consumeAsync poll: a record, or a
kafka error with a numeric code. -/
inductive PollResult where
  | record (r : KRecord)
  | kafkaErr (code : Int)
deriving DecidableEq, Repr

/-- librdkafka error code ERR__PARTITION_EOF. -/
def errPartitionEof : Int := -191

/-- librdkafka error code ERR__TIMED_OUT. -/
def errTimedOut : Int := -185

/-- Benign kafka errors that the consume pipeline absorbs with a short
delay: partition end-of-log and poll timeout. -/
def benignKafkaCode (code : Int) : Bool :=
  code = errPartitionEof || code = errTimedOut

/-- The per-socket session state of a Kasocki instance, together with
its fixed configuration.  The kafkaConsumer flag models presence of the
broker handle (deleted on disconnect); assignment models the topic
partitions assigned to the consumer. -/
structure Session where
  name : String
  availableTopics : List String
  metadataTopics : List TopicMetadata
  deserializer : KRecord → Except Unit JVal
  subscribed : Bool
  running : Bool
  closing : Bool
  matcher : Option Matcher
  kafkaConsumer : Bool
  assignment : List Assignment

/-- The session state established by the Kasocki constructor and a
successful connect: flags false, no matcher, broker handle present,
nothing assigned. -/
def Session.init (name : String) (availableTopics : List String)
    (metadataTopics : List TopicMetadata)
    (deserializer : KRecord → Except Unit JVal) : Session :=
  { name := name
    availableTopics := availableTopics
    metadataTopics := metadataTopics
    deserializer := deserializer
    subscribed := false
    running := false
    closing := false
    matcher := none
    kafkaConsumer := true
    assignment := [] }

/-- Observable side effects of a handler step: calls into the broker
adapter and emissions on the socket. -/
inductive Effect where
  | assign (l : List Assignment)
  | brokerDisconnect
  | socketDisconnect
  | emitMessage (m : JVal)
  | emitErr (e : KErr)
  | ackCall (e : Option KErr) (v : Option JVal)
deriving Repr

/-- The value a handler hands to the ack callback on success.  Handlers
that return undefined yield none. -/
inductive RVal where
  | assignments (l : List Assignment)
  | filters (f : List (String × JVal))
  | message (m : JVal)
deriving Repr

/-- The outcome of one handler invocation on the session: the new state,
the result (ok none models returning undefined; error models a thrown
or returned Error), and the broker or socket effects performed. -/
structure StepResult where
  state : Session
  result : Except KErr (Option RVal)
  effects : List Effect

/-- Kasocki._checkTopicsAvailable: throws TopicNotAvailableError citing
the first topic in the list that is not in availableTopics. -/
def checkTopicsAvailable (availableTopics : List String) :
    List String → Except KErr Unit
  | [] => .ok ()
  | t :: rest =>
    if availableTopics.contains t then
      checkTopicsAvailable availableTopics rest
    else
      .error (KErr.raise (.topicNotAvailable t))

/-- Kasocki.subscribe: silently dropped when closing; AlreadySubscribed
when already subscribed; otherwise validates the request, checks every
requested topic against availableTopics, then assigns the normalized
list on the consumer, flips subscribed, and returns the assignments. -/
def subscribe (s : Session) (arg : SubscribeArg) : StepResult :=
  if s.closing then
    ⟨s, .ok none, []⟩
  else if s.subscribed then
    ⟨s, .error (KErr.raise .alreadySubscribed), []⟩
  else
    let elems := match arg with
      | .str t => [.name t]
      | .arr l => l
    if !validateAssignments elems then
      ⟨s, .error (KErr.raise .invalidAssignment), []⟩
    else
      match elems with
      | .name _ :: _ =>
        -- Topic-name form: check availability of the names, then expand
        -- to assignments at latest for every partition in metadata.
        let topics := elems.map SubscribeElem.topic
        match checkTopicsAvailable s.availableTopics topics with
        | .error e => ⟨s, .error e, []⟩
        | .ok _ =>
          let as := buildAssignments s.metadataTopics topics
          ⟨{ s with subscribed := true, assignment := as },
            .ok (some (.assignments as)), [.assign as]⟩
      | _ =>
        -- Tuple form: check availability of the topics of the tuples,
        -- then assign the tuples unchanged.
        let topics := elems.map SubscribeElem.topic
        match checkTopicsAvailable s.availableTopics topics with
        | .error e => ⟨s, .error e, []⟩
        | .ok _ =>
          let as := elems.filterMap (fun e =>
            match e with
            | .tuple a => some a
            | .name _ => none)
          ⟨{ s with subscribed := true, assignment := as },
            .ok (some (.assignments as)), [.assign as]⟩

/-- Kasocki.filter: a falsy argument disables filtering by removing the
matcher; otherwise the matcher factory compiles the filters, a factory
throw is re-raised as InvalidFilterError, and on success the new matcher
is installed and its filters returned.  Note the source has no closing
guard here. -/
def filter (s : Session) (filters : Option JVal) : StepResult :=
  match filters with
  | none =>
    ⟨{ s with matcher := none }, .ok none, []⟩
  | some f =>
    if !f.truthy then
      ⟨{ s with matcher := none }, .ok none, []⟩
    else
      match createMatcherFunctionWithFilters f with
      | .error _ => ⟨s, .error (KErr.raise .invalidFilter), []⟩
      | .ok mt =>
        ⟨{ s with matcher := some mt }, .ok (some (.filters mt.filters)), []⟩

/-- Kasocki._deserialize: applies the configured deserializer and wraps
any error it throws as a DeserializationError. -/
def deserializeRecord (s : Session) (r : KRecord) : Except KErr JVal :=
  match s.deserializer r with
  | .ok m => .ok m
  | .error _ => .error (KErr.raise .deserialization)

/-- Kasocki._match: without a configured matcher every message is
returned; with one, the message is returned when the matcher accepts it
and false (modelled as none) otherwise. -/
def matchMessage (s : Session) (m : JVal) : Option JVal :=
  match s.matcher with
  | none => some m
  | some mt => if mt.matches m then some m else none

/-- Kasocki.consume: silently returns when closing, NotSubscribed when
not subscribed; otherwise polls, skips benign kafka errors (after a
delay), propagates hard kafka errors, logs and skips deserialization
failures, skips filter misses, and recurses until a message both
deserializes and matches.  The recursion consumes the modelled stream of
poll outcomes; an exhausted stream yields no message yet. -/
def consume (s : Session) : List PollResult → Except KErr (Option JVal)
  | [] =>
    if s.closing then .ok none
    else if !s.subscribed then .error (KErr.raise .notSubscribed)
    else .ok none
  | p :: rest =>
    if s.closing then .ok none
    else if !s.subscribed then .error (KErr.raise .notSubscribed)
    else
      match p with
      | .kafkaErr code =>
        if benignKafkaCode code then consume s rest
        else .error (KErr.raise (.kafka code))
      | .record r =>
        match deserializeRecord s r with
        | .error _ => consume s rest
        | .ok m =>
          match matchMessage s m with
          | some msg => .ok (some msg)
          | none => consume s rest

/-- Kasocki.start: AlreadyStarted when running, AlreadyClosing when
closing, NotSubscribed when not subscribed; otherwise sets running and
kicks off the background loop, resolving with undefined. -/
def start (s : Session) : StepResult :=
  if s.running then
    ⟨s, .error (KErr.raise .alreadyStarted), []⟩
  else if s.closing then
    ⟨s, .error (KErr.raise .alreadyClosing), []⟩
  else if !s.subscribed then
    ⟨s, .error (KErr.raise .notSubscribed), []⟩
  else
    ⟨{ s with running := true }, .ok none, []⟩

/-- Kasocki.stop: clears running when running, otherwise only logs;
returns undefined either way. -/
def stop (s : Session) : StepResult :=
  if s.running then
    ⟨{ s with running := false }, .ok none, []⟩
  else
    ⟨s, .ok none, []⟩

/-- Kasocki.disconnect: clears running, sets closing, disconnects and
deletes the broker handle when it is still present, and disconnects the
websocket. -/
def disconnect (s : Session) : StepResult :=
  let s1 := { s with running := false, closing := true }
  if s1.kafkaConsumer then
    ⟨{ s1 with kafkaConsumer := false }, .ok none,
      [.brokerDisconnect, .socketDisconnect]⟩
  else
    ⟨s1, .ok none, [.socketDisconnect]⟩

/-- A client-driven socket event dispatched to a session handler.  The
consume event carries the modelled stream of broker poll outcomes its
handler will see. -/
inductive Event where
  | subscribe (arg : SubscribeArg)
  | filter (filters : Option JVal)
  | consume (polls : List PollResult)
  | start
  | stop
  | disconnect

/-- Dispatch of one socket event to its session handler.  The consume
handler never mutates the session state. -/
def step (s : Session) (e : Event) : StepResult :=
  match e with
  | .subscribe arg => subscribe s arg
  | .filter f => filter s f
  | .consume polls =>
    match consume s polls with
    | .ok (some m) => ⟨s, .ok (some (.message m)), []⟩
    | .ok none => ⟨s, .ok none, []⟩
    | .error e => ⟨s, .error e, []⟩
  | .start => start s
  | .stop => stop s
  | .disconnect => disconnect s

/-- Runs a list of socket events through the session, returning the
final state. -/
def run (s : Session) : List Event → Session
  | [] => s
  | e :: rest => run (step s e).state rest

/-- Runs a list of socket events, collecting every handler result in
order. -/
def runResults (s : Session) : List Event → List (Except KErr (Option RVal))
  | [] => []
  | e :: rest => (step s e).result :: runResults (step s e).state rest

/-- The raw outcome of a handler invocation before the promise wrapper:
a returned value, a returned Error object, or a thrown Error. -/
inductive HandlerOut where
  | ret (v : Option RVal)
  | retErr (e : KErr)
  | thrown (e : KErr)
deriving Repr

/-- The promise lift inside Kasocki._wrapHandler: a returned Error
rejects just like a thrown one; any other value resolves. -/
def liftHandlerOut : HandlerOut → Except KErr (Option RVal)
  | .ret v => .ok v
  | .retErr e => .error e
  | .thrown e => .error e

/-- What the handler delivers to the ack callback: an error or a value. -/
inductive AckArg where
  | ack (e : Option KErr) (v : Option RVal)
deriving Repr

/-- An observable action of the wrapped handler towards the client:
an ack callback invocation or an err event emission. -/
inductive WrapAction where
  | callback (a : AckArg)
  | emitErr (e : KErr)
deriving Repr

/-- Kasocki._wrapHandler, client-visible actions: on success the ack
callback receives (undefined, result); on failure the error is
serialized by _error, given to the ack callback as (error, undefined),
and also emitted as an err socket event.  Without an ack callback the
callback invocations are omitted but the err emission still happens. -/
def wrapHandler (name socketEvent : String) (out : HandlerOut)
    (hasCb : Bool) : List WrapAction :=
  match liftHandlerOut out with
  | .ok v =>
    if hasCb then [.callback (.ack none v)] else []
  | .error e =>
    let e2 := errorForClient name socketEvent e
    (if hasCb then [.callback (.ack (some e2) none)] else []) ++
      [.emitErr e2]

/-- State of the push-mode delivery machinery: the session together
with the number of in-flight consume chains started by _loop that are
still awaiting a broker poll result. -/
structure LoopState where
  sess : Session
  inflight : Nat

/-- An event of the push-mode machine: either a client socket event
handled between promise continuations, or the resolution of one
in-flight consume chain with a matched message.  The source _loop then
runs its continuation: it emits the message and re-enters _loop, which
checks the running flag before issuing the next consume poll. -/
inductive PushEvent where
  | client (e : Event)
  | deliver (m : JVal)

/-- One step of the push-mode machine.  A client start event that
succeeds causes _loop to issue a consume poll (one more in-flight
chain).  A deliver event models the _loop continuation on a resolved
consume: the message is emitted unconditionally, and the recursive
_loop call issues a new poll only when running is still set. -/
def pushStep (st : LoopState) : PushEvent → LoopState × List Effect
  | .client e =>
    let r := step st.sess e
    let inflight :=
      match e with
      | .start => if !st.sess.running && r.state.running then st.inflight + 1 else st.inflight
      | _ => st.inflight
    (⟨r.state, inflight⟩, r.effects)
  | .deliver m =>
    match st.inflight with
    | 0 => (st, [])
    | n + 1 =>
      (⟨st.sess, n + (if st.sess.running then 1 else 0)⟩, [.emitMessage m])

/-- Runs a list of push-machine events, collecting all effects. -/
def runPush (st : LoopState) : List PushEvent → LoopState × List Effect
  | [] => (st, [])
  | e :: rest =>
    let r := pushStep st e
    let r2 := runPush r.1 rest
    (r2.1, r.2 ++ r2.2)

/-- Counts the message emissions in a list of effects. -/
def countMessages (effects : List Effect) : Nat :=
  effects.countP (fun ef =>
    match ef with
    | .emitMessage _ => true
    | _ => false)

/-- Counts the broker disconnect calls in a list of effects. -/
def countBrokerDisconnects (effects : List Effect) : Nat :=
  effects.countP (fun ef =>
    match ef with
    | .brokerDisconnect => true
    | _ => false)

/-- Iterates the disconnect handler n times, collecting all effects. -/
def iterateDisconnect (s : Session) : Nat → Session × List Effect
  | 0 => (s, [])
  | n + 1 =>
    let r := disconnect s
    let r2 := iterateDisconnect r.state n
    (r2.1, r.effects ++ r2.2)

/-- A concrete deserializer for witnesses: fails on the payload bad,
returns the payload as a JSON string otherwise. -/
def demoDeserializer : KRecord → Except Unit JVal :=
  fun r => if r.payload = "bad" then .error () else .ok (.str r.payload)

/-- A concrete freshly connected session for witnesses: two available
topics, topicA with one partition and topicB with two. -/
def demoSession : Session :=
  Session.init "socket1" ["topicA", "topicB"]
    [⟨"topicA", [0]⟩, ⟨"topicB", [0, 1]⟩] demoDeserializer

/-- The demo session after a successful subscribe to topicA. -/
def demoSubscribedSession : Session :=
  (subscribe demoSession (.arr [.name "topicA"])).state

/-- The demo session after subscribing and then disconnecting. -/
def demoClosedSession : Session :=
  (disconnect demoSubscribedSession).state

/-- The push machine with the demo session running and one consume
chain in flight, as after a successful start. -/
def demoRunningLoop : LoopState :=
  ⟨{ demoSubscribedSession with running := true }, 1⟩

/-- The first topic of the list that is not among the available topics,
if any: the topic that _checkTopicsAvailable cites in its
TopicNotAvailableError. -/
def firstUnavailableTopic (availableTopics : List String) :
    List String → Option String
  | [] => none
  | t :: rest =>
    if availableTopics.contains t then
      firstUnavailableTopic availableTopics rest
    else
      some t

/-
Theorems.
-/

/-- C7: for every user-supplied broker configuration map, the effective
session configuration always has enable.auto.commit = false and
group.id = kasocki-socketid (overriding any user-supplied values), and
has metadata.broker.list = localhost:9092 and client.id =
kasocki-socketid exactly when the user did not supply those keys
(otherwise the user-supplied value stands). -/
theorem kafkaConfig_forced_and_defaulted (name : String) (user : KafkaConfig) :
    effectiveKafkaConfig name user "enable.auto.commit" = some (.bool false) ∧
    effectiveKafkaConfig name user "group.id" = some (.str ("kasocki-" ++ name)) ∧
    effectiveKafkaConfig name user "metadata.broker.list" =
      some ((user "metadata.broker.list").getD (.str "localhost:9092")) ∧
    effectiveKafkaConfig name user "client.id" =
      some ((user "client.id").getD (.str ("kasocki-" ++ name))) := by
  refine ⟨rfl, rfl, ?_, ?_⟩
  · simp only [effectiveKafkaConfig, objAssign, defaultKafkaConfig, mandatoryKafkaConfig]
    cases h : user "metadata.broker.list" <;> simp [h]
  · simp only [effectiveKafkaConfig, objAssign, defaultKafkaConfig, mandatoryKafkaConfig]
    cases h : user "client.id" <;> simp [h]

/-- C5: for every wrapped socket-event handler, on success the ack
callback receives (undefined, result); on a thrown or returned Error the
ack callback receives the serialized error with undefined, and an err
event carrying the same error is emitted; without an ack callback the
callback invocation is omitted but the err emission still occurs.  The
serialized error carries the socket name and has its stack removed. -/
theorem wrapHandler_ack_and_err (name socketEvent : String) (v : Option RVal)
    (e : KErr) :
    wrapHandler name socketEvent (.ret v) true = [.callback (.ack none v)] ∧
    wrapHandler name socketEvent (.ret v) false = [] ∧
    wrapHandler name socketEvent (.thrown e) true =
      [.callback (.ack (some (errorForClient name socketEvent e)) none),
       .emitErr (errorForClient name socketEvent e)] ∧
    wrapHandler name socketEvent (.retErr e) true =
      [.callback (.ack (some (errorForClient name socketEvent e)) none),
       .emitErr (errorForClient name socketEvent e)] ∧
    wrapHandler name socketEvent (.thrown e) false =
      [.emitErr (errorForClient name socketEvent e)] ∧
    wrapHandler name socketEvent (.retErr e) false =
      [.emitErr (errorForClient name socketEvent e)] ∧
    (errorForClient name socketEvent e).socket = some name ∧
    (errorForClient name socketEvent e).hasStack = false :=
  ⟨rfl, rfl, rfl, rfl, rfl, rfl, rfl, rfl⟩

/-- Once the broker handle is gone, further disconnect calls never call
the broker disconnect again and the handle stays cleared. -/
theorem iterateDisconnect_no_consumer (n : Nat) :
    ∀ s : Session, s.kafkaConsumer = false →
      countBrokerDisconnects (iterateDisconnect s n).2 = 0 ∧
      (iterateDisconnect s n).1.kafkaConsumer = false := by
  induction n with
  | zero =>
    intro s h
    exact ⟨rfl, h⟩
  | succ n ih =>
    intro s h
    have hstep : disconnect s =
        ⟨{ s with running := false, closing := true }, .ok none,
          [.socketDisconnect]⟩ := by
      simp [disconnect, h]
    rcases ih { s with running := false, closing := true } h with ⟨h1, h2⟩
    simp [iterateDisconnect, hstep, countBrokerDisconnects] at h1 h2 ⊢
    exact ⟨h1, h2⟩

/-- C9: for every session whose broker handle is present and every
number of disconnect events of at least one, the broker client
disconnect is invoked exactly once across all of them and the
broker-handle reference ends up cleared. -/
theorem disconnect_broker_exactly_once (s : Session) (n : Nat)
    (hconsumer : s.kafkaConsumer = true) (hn : 1 ≤ n) :
    countBrokerDisconnects (iterateDisconnect s n).2 = 1 ∧
    (iterateDisconnect s n).1.kafkaConsumer = false := by
  cases n with
  | zero => omega
  | succ n =>
    have hstep : disconnect s =
        ⟨{ s with running := false, closing := true, kafkaConsumer := false },
          .ok none, [.brokerDisconnect, .socketDisconnect]⟩ := by
      simp [disconnect, hconsumer]
    rcases iterateDisconnect_no_consumer n
        { s with running := false, closing := true, kafkaConsumer := false }
        rfl with ⟨h1, h2⟩
    simp [iterateDisconnect, hstep, countBrokerDisconnects] at h1 h2 ⊢
    exact ⟨h1, h2⟩

/-- C9 witness: three disconnect events on the demo session produce one
broker disconnect and clear the handle. -/
theorem disconnect_broker_exactly_once_witness :
    countBrokerDisconnects (iterateDisconnect demoSession 3).2 = 1 ∧
    (iterateDisconnect demoSession 3).1.kafkaConsumer = false :=
  disconnect_broker_exactly_once demoSession 3 rfl (by decide)

/-- A single handler step keeps the invariant that a closing session is
not running: disconnect clears running as it sets closing, start refuses
to set running while closing, and no other handler sets running. -/
theorem step_closing_not_running (s : Session) (e : Event)
    (h : s.closing = true → s.running = false) :
    (step s e).state.closing = true → (step s e).state.running = false := by
  cases e with
  | subscribe arg =>
    simp only [step, subscribe]
    repeat' split
    all_goals exact h
  | filter f =>
    simp only [step, filter]
    split
    · exact h
    · split
      · exact h
      · split
        · exact h
        · exact h
  | consume polls =>
    simp only [step]
    split <;> exact h
  | start =>
    simp only [step, start]
    split
    · exact h
    · split
      · exact h
      · split
        · exact h
        · intro hc
          simp_all
  | stop =>
    simp only [step, stop]
    split
    · intro hc; rfl
    · exact h
  | disconnect =>
    simp only [step, disconnect]
    split
    · intro hc; rfl
    · intro hc; rfl

/-- Runs preserve the closing-implies-not-running invariant. -/
theorem run_closing_not_running_aux (evs : List Event) :
    ∀ s : Session, (s.closing = true → s.running = false) →
      (run s evs).closing = true → (run s evs).running = false := by
  induction evs with
  | nil => intro s h; exact h
  | cons e rest ih =>
    intro s h
    exact ih (step s e).state (step_closing_not_running s e h)

/-- C10: in every session state reachable from the freshly connected
state by socket events, closing = true implies running = false: the
session is never simultaneously running and closing. -/
theorem reachable_closing_not_running (name : String)
    (availableTopics : List String) (metadataTopics : List TopicMetadata)
    (deserializer : KRecord → Except Unit JVal) (evs : List Event)
    (h : (run (Session.init name availableTopics metadataTopics deserializer)
        evs).closing = true) :
    (run (Session.init name availableTopics metadataTopics deserializer)
        evs).running = false :=
  run_closing_not_running_aux evs
    (Session.init name availableTopics metadataTopics deserializer)
    (fun _ => rfl) h

/-- C10 witness: after a subscribe and a disconnect the demo session is
closing, and the theorem yields that it is not running. -/
theorem reachable_closing_not_running_witness :
    (run (Session.init "socket1" ["topicA", "topicB"]
        [⟨"topicA", [0]⟩, ⟨"topicB", [0, 1]⟩] demoDeserializer)
      [.subscribe (.arr [.name "topicA"]), .disconnect]).running = false :=
  reachable_closing_not_running "socket1" ["topicA", "topicB"]
    [⟨"topicA", [0]⟩, ⟨"topicB", [0, 1]⟩] demoDeserializer
    [.subscribe (.arr [.name "topicA"]), .disconnect] rfl

/-- checkTopicsAvailable fails citing exactly the first topic of the
list that is not among the available topics. -/
theorem checkTopicsAvailable_first_offender (availableTopics : List String) :
    ∀ (topics : List String) (t : String),
      firstUnavailableTopic availableTopics topics = some t →
      checkTopicsAvailable availableTopics topics =
        .error (KErr.raise (.topicNotAvailable t)) := by
  intro topics
  induction topics with
  | nil => intro t h; simp [firstUnavailableTopic] at h
  | cons x rest ih =>
    intro t h
    simp only [firstUnavailableTopic] at h
    simp only [checkTopicsAvailable]
    by_cases hx : availableTopics.contains x = true
    · rw [if_pos hx] at h
      rw [if_pos hx]
      exact ih t h
    · rw [if_neg hx] at h
      rw [if_neg hx]
      injection h with h
      rw [h]

/-- C1: for every subscribe request that passes assignment validation
but names a topic outside availableTopics, in a session that is neither
closing nor already subscribed, the subscribe handler fails with
TopicNotAvailable citing the first offending topic, the broker assign is
never called (no effects), and the session state is unchanged (in
particular subscribed remains false). -/
theorem subscribe_topic_gating (s : Session) (elems : List SubscribeElem)
    (t : String) (hclosing : s.closing = false) (hsub : s.subscribed = false)
    (hvalid : validateAssignments elems = true)
    (hbad : firstUnavailableTopic s.availableTopics
        (elems.map SubscribeElem.topic) = some t) :
    subscribe s (.arr elems) =
      ⟨s, .error (KErr.raise (.topicNotAvailable t)), []⟩ := by
  have hcheck := checkTopicsAvailable_first_offender s.availableTopics
    (elems.map SubscribeElem.topic) t hbad
  cases elems with
  | nil => simp [validateAssignments] at hvalid
  | cons e rest =>
    cases e with
    | name x =>
      simp only [List.map_cons] at hcheck
      simp [subscribe, hclosing, hsub, hvalid, hcheck]
    | tuple a =>
      simp only [List.map_cons] at hcheck
      simp [subscribe, hclosing, hsub, hvalid, hcheck]

/-- C1 witness: requesting the unavailable topic nope on the demo
session fails with TopicNotAvailable citing nope, with no assign and no
state change. -/
theorem subscribe_topic_gating_witness :
    subscribe demoSession (.arr [.name "nope"]) =
      ⟨demoSession, .error (KErr.raise (.topicNotAvailable "nope")), []⟩ :=
  subscribe_topic_gating demoSession [.name "nope"] "nope" rfl rfl
    (by decide) (by decide)

/-- No handler ever clears the subscribed flag: one step keeps it set. -/
theorem step_subscribed_monotone (s : Session) (e : Event)
    (h : s.subscribed = true) : (step s e).state.subscribed = true := by
  cases e with
  | subscribe arg =>
    simp only [step, subscribe]
    repeat' split
    all_goals first | rfl | exact h
  | filter f =>
    simp only [step, filter]
    repeat' split
    all_goals exact h
  | consume polls =>
    simp only [step]
    split <;> exact h
  | start =>
    simp only [step, start]
    repeat' split
    all_goals exact h
  | stop =>
    simp only [step, stop]
    split <;> exact h
  | disconnect =>
    simp only [step, disconnect]
    split <;> exact h

/-- No run of handlers ever clears the subscribed flag. -/
theorem run_subscribed_monotone (evs : List Event) :
    ∀ s : Session, s.subscribed = true → (run s evs).subscribed = true := by
  induction evs with
  | nil => intro s h; exact h
  | cons e rest ih =>
    intro s h
    exact ih (step s e).state (step_subscribed_monotone s e h)

/-- C2 counterexample: after a successful subscribe on the demo session
and a disconnect, the session is still subscribed, yet a further
subscribe does not fail with AlreadySubscribed: the closing guard drops
it silently and its result is ok with no value. -/
theorem subscribe_after_close_silently_dropped :
    (step demoSession (.subscribe (.arr [.name "topicA"]))).result =
      .ok (some (.assignments [⟨"topicA", 0, -1⟩])) ∧
    (run demoSession
        [.subscribe (.arr [.name "topicA"]), .disconnect]).subscribed = true ∧
    (step (run demoSession [.subscribe (.arr [.name "topicA"]), .disconnect])
        (.subscribe (.arr [.name "topicA"]))).result = .ok none :=
  ⟨rfl, rfl, rfl⟩

/-- C2 amended: the subscribed flag transitions false to true at most
once: no handler ever clears it; after a successful subscribe, every
subsequent subscribe call while the session is not closing fails with
AlreadySubscribed and leaves the state (assignment included) unchanged
with no broker effects; once the session is closing, subsequent
subscribe calls are silently dropped, likewise changing nothing. -/
theorem subscribe_at_most_once (s : Session) (evs : List Event)
    (arg : SubscribeArg) (hsub : s.subscribed = true) :
    (run s evs).subscribed = true ∧
    (s.closing = false →
      subscribe s arg = ⟨s, .error (KErr.raise .alreadySubscribed), []⟩) ∧
    (s.closing = true → subscribe s arg = ⟨s, .ok none, []⟩) := by
  refine ⟨run_subscribed_monotone evs s hsub, ?_, ?_⟩
  · intro hc
    simp [subscribe, hc, hsub]
  · intro hc
    simp [subscribe, hc]

/-- C2 witness: on the subscribed demo session, a later subscribe fails
with AlreadySubscribed and changes nothing, and after its disconnect a
subscribe is silently dropped; subscribed stays true under both. -/
theorem subscribe_at_most_once_witness :
    ((run demoSubscribedSession [.stop, .disconnect]).subscribed = true ∧
      (demoSubscribedSession.closing = false →
        subscribe demoSubscribedSession (.arr [.name "topicB"]) =
          ⟨demoSubscribedSession, .error (KErr.raise .alreadySubscribed), []⟩) ∧
      (demoSubscribedSession.closing = true →
        subscribe demoSubscribedSession (.arr [.name "topicB"]) =
          ⟨demoSubscribedSession, .ok none, []⟩)) :=
  subscribe_at_most_once demoSubscribedSession [.stop, .disconnect]
    (.arr [.name "topicB"]) rfl

/-- C3 counterexample: in the closed demo session (closing = true) the
start handler is not silently dropped: it fails with AlreadyClosing, an
error which the wrapper delivers to the client through the ack callback
and an err event; and the filter handler is not dropped either: it still
installs a matcher, a state transition beyond teardown. -/
theorem start_and_filter_not_dropped_when_closing :
    demoClosedSession.closing = true ∧
    (start demoClosedSession).result = .error (KErr.raise .alreadyClosing) ∧
    wrapHandler "socket1" "start" (.thrown (KErr.raise .alreadyClosing)) true =
      [.callback (.ack (some (errorForClient "socket1" "start"
          (KErr.raise .alreadyClosing))) none),
       .emitErr (errorForClient "socket1" "start" (KErr.raise .alreadyClosing))] ∧
    (filter demoClosedSession
        (some (.obj [("name", .str "x")]))).state.matcher =
      some ⟨[("name", .str "x")]⟩ :=
  ⟨rfl, rfl, rfl, rfl⟩

/-- C3 amended: once closing = true (with running = false, as in every
reachable closing state), subscribe and consume are silently dropped:
no value, no error, no state change, no effects; stop also changes
nothing; but start fails with AlreadyClosing, an error the client
observes, and filter is not guarded by closing at all: a falsy argument
still clears the matcher and a valid spec still installs one. -/
theorem closing_short_circuits (s : Session) (arg : SubscribeArg)
    (polls : List PollResult) (fv : JVal) (mt : Matcher)
    (hclosing : s.closing = true) (hrun : s.running = false) :
    subscribe s arg = ⟨s, .ok none, []⟩ ∧
    consume s polls = .ok none ∧
    stop s = ⟨s, .ok none, []⟩ ∧
    start s = ⟨s, .error (KErr.raise .alreadyClosing), []⟩ ∧
    filter s none = ⟨{ s with matcher := none }, .ok none, []⟩ ∧
    (fv.truthy = true → createMatcherFunctionWithFilters fv = .ok mt →
      filter s (some fv) =
        ⟨{ s with matcher := some mt }, .ok (some (.filters mt.filters)), []⟩) := by
  refine ⟨?_, ?_, ?_, ?_, rfl, ?_⟩
  · simp [subscribe, hclosing]
  · cases polls <;> simp [consume, hclosing]
  · simp [stop, hrun]
  · simp [start, hrun, hclosing]
  · intro htr hok
    simp [filter, htr, hok]

/-- C3 witness: the amended behavior at the closed demo session, with a
concrete subscribe argument, poll stream and filter spec. -/
theorem closing_short_circuits_witness :
    (subscribe demoClosedSession (.arr [.name "topicA"]) =
        ⟨demoClosedSession, .ok none, []⟩ ∧
      consume demoClosedSession [.record ⟨"good"⟩] = .ok none ∧
      stop demoClosedSession = ⟨demoClosedSession, .ok none, []⟩ ∧
      start demoClosedSession =
        ⟨demoClosedSession, .error (KErr.raise .alreadyClosing), []⟩ ∧
      filter demoClosedSession none =
        ⟨{ demoClosedSession with matcher := none }, .ok none, []⟩ ∧
      ((JVal.obj [("name", .str "x")]).truthy = true →
        createMatcherFunctionWithFilters (.obj [("name", .str "x")]) =
          .ok ⟨[("name", .str "x")]⟩ →
        filter demoClosedSession (some (.obj [("name", .str "x")])) =
          ⟨{ demoClosedSession with matcher := some ⟨[("name", .str "x")]⟩ },
            .ok (some (.filters [("name", .str "x")])), []⟩)) :=
  closing_short_circuits demoClosedSession (.arr [.name "topicA"])
    [.record ⟨"good"⟩] (.obj [("name", .str "x")]) ⟨[("name", .str "x")]⟩
    rfl rfl

/-- When _match returns a message, it is the very message it was given. -/
theorem matchMessage_some (s : Session) (m msg : JVal)
    (h : matchMessage s m = some msg) : msg = m := by
  simp only [matchMessage] at h
  split at h
  · injection h with h
    exact h.symm
  · split at h
    · injection h with h
      exact h.symm
    · exact Option.noConfusion h

/-- When _deserialize succeeds, the configured deserializer produced
exactly that message. -/
theorem deserializeRecord_ok (s : Session) (r : KRecord) (m : JVal)
    (h : deserializeRecord s r = .ok m) : s.deserializer r = .ok m := by
  simp only [deserializeRecord] at h
  split at h
  · rename_i heq
    injection h with h
    rw [h] at heq
    exact heq
  · exact Except.noConfusion h

/-- Any message consume returns comes from a record of the polled stream
that deserialized successfully and matched the configured filters. -/
theorem consume_ok_deserialized_and_matched (s : Session) :
    ∀ (polls : List PollResult) (m : JVal),
      consume s polls = .ok (some m) →
      ∃ r, PollResult.record r ∈ polls ∧ s.deserializer r = .ok m ∧
        matchMessage s m = some m := by
  intro polls
  induction polls with
  | nil =>
    intro m h
    simp only [consume] at h
    split at h
    · exact Option.noConfusion (Except.ok.inj h)
    · split at h
      · exact Except.noConfusion h
      · exact Option.noConfusion (Except.ok.inj h)
  | cons p rest ih =>
    intro m h
    simp only [consume] at h
    split at h
    · exact Option.noConfusion (Except.ok.inj h)
    · split at h
      · exact Except.noConfusion h
      · split at h
        · rename_i code
          by_cases hb : benignKafkaCode code = true
          · rw [if_pos hb] at h
            rcases ih m h with ⟨r2, hmem, hd, hm⟩
            exact ⟨r2, List.mem_cons_of_mem _ hmem, hd, hm⟩
          · rw [if_neg hb] at h
            exact Except.noConfusion h
        · rename_i r
          cases hdeser : deserializeRecord s r with
          | error e =>
            simp only [hdeser] at h
            rcases ih m h with ⟨r2, hmem, hd, hm⟩
            exact ⟨r2, List.mem_cons_of_mem _ hmem, hd, hm⟩
          | ok m2 =>
            simp only [hdeser] at h
            cases hmatch : matchMessage s m2 with
            | none =>
              simp only [hmatch] at h
              rcases ih m h with ⟨r2, hmem, hd, hm⟩
              exact ⟨r2, List.mem_cons_of_mem _ hmem, hd, hm⟩
            | some msg =>
              simp only [hmatch] at h
              injection h with h
              injection h with h
              subst h
              have hm2 : msg = m2 := matchMessage_some s m2 msg hmatch
              subst hm2
              exact ⟨r, List.mem_cons_self _ _,
                deserializeRecord_ok s r msg hdeser, hmatch⟩

/-- C6: a record whose deserialization fails is never delivered and does
not fail the consume call: consuming a stream that begins with such a
record equals consuming the rest of the stream (the pipeline logs and
skips it), and any message consume does deliver comes from a record that
deserialized successfully and matched the configured filters. -/
theorem consume_deserialization_skip (s : Session) (r : KRecord)
    (rest polls : List PollResult) (m : JVal)
    (hclosing : s.closing = false) (hsub : s.subscribed = true)
    (hbad : s.deserializer r = .error ()) :
    consume s (.record r :: rest) = consume s rest ∧
    (consume s polls = .ok (some m) →
      ∃ r2, PollResult.record r2 ∈ polls ∧ s.deserializer r2 = .ok m ∧
        matchMessage s m = some m) := by
  constructor
  · have hd : deserializeRecord s r = .error (KErr.raise .deserialization) := by
      simp [deserializeRecord, hbad]
    simp [consume, hclosing, hsub, hd]
  · exact consume_ok_deserialized_and_matched s polls m

/-- C6 witness: on the subscribed demo session, a stream beginning with
a record whose payload fails the deserializer behaves as the stream
without it, and the delivered message comes from the record that
deserialized. -/
theorem consume_deserialization_skip_witness :
    consume demoSubscribedSession [.record ⟨"bad"⟩, .record ⟨"good"⟩] =
        consume demoSubscribedSession [.record ⟨"good"⟩] ∧
    (consume demoSubscribedSession [.record ⟨"bad"⟩, .record ⟨"good"⟩] =
        .ok (some (.str "good")) →
      ∃ r2, PollResult.record r2 ∈
          [PollResult.record ⟨"bad"⟩, PollResult.record ⟨"good"⟩] ∧
        demoSubscribedSession.deserializer r2 = .ok (.str "good") ∧
        matchMessage demoSubscribedSession (.str "good") =
          some (.str "good")) :=
  consume_deserialization_skip demoSubscribedSession ⟨"bad"⟩
    [.record ⟨"good"⟩] [.record ⟨"bad"⟩, .record ⟨"good"⟩] (.str "good")
    rfl rfl rfl

/-- C8 counterexample: passing the empty filter mapping (an empty
filter spec) does not remove the matcher: the empty object is truthy,
so the handler takes the factory branch and installs a matcher compiled
from the empty filter map. -/
theorem empty_filter_spec_installs_matcher :
    (filter demoSubscribedSession (some (.obj []))).state.matcher =
      some ⟨[]⟩ := rfl

/-- C8 amended: a falsy filter argument (absent, null, false, zero or
the empty string) resets filtering by removing the matcher; the empty
mapping instead installs a matcher with no entries; in both resulting
states every deserialized message matches: _match returns the message
unchanged for every message. -/
theorem filter_reset_match_all (s : Session) (m : JVal) :
    (filter s none).state.matcher = none ∧
    matchMessage (filter s none).state m = some m ∧
    (filter s (some .null)).state.matcher = none ∧
    matchMessage (filter s (some .null)).state m = some m ∧
    (filter s (some (.obj []))).state.matcher = some ⟨[]⟩ ∧
    matchMessage (filter s (some (.obj []))).state m = some m :=
  ⟨rfl, rfl, rfl, rfl, rfl, rfl⟩

/-- No handler step ever emits a message event: message emissions come
only from the push loop continuation. -/
theorem step_no_message_effect (s : Session) (e : Event) :
    countMessages (step s e).effects = 0 := by
  cases e with
  | subscribe arg =>
    simp only [step, subscribe]
    repeat' split
    all_goals rfl
  | filter f =>
    simp only [step, filter]
    repeat' split
    all_goals rfl
  | consume polls =>
    simp only [step]
    split <;> rfl
  | start =>
    simp only [step, start]
    repeat' split
    all_goals rfl
  | stop =>
    simp only [step, stop]
    split <;> rfl
  | disconnect =>
    simp only [step, disconnect]
    split <;> rfl

/-- Every handler other than start keeps running cleared. -/
theorem step_preserves_not_running (s : Session) (e : Event)
    (hne : e ≠ .start) (h : s.running = false) :
    (step s e).state.running = false := by
  cases e with
  | subscribe arg =>
    simp only [step, subscribe]
    repeat' split
    all_goals exact h
  | filter f =>
    simp only [step, filter]
    repeat' split
    all_goals exact h
  | consume polls =>
    simp only [step]
    split <;> exact h
  | start => exact absurd rfl hne
  | stop =>
    simp only [step, stop]
    split
    · rfl
    · exact h
  | disconnect =>
    simp only [step, disconnect]
    split <;> rfl

/-- C4 amended: once running is false (as after stop), the loop issues
no new polls: the running flag is checked before each further consume.
However, a consume chain already in flight when stop arrived still
delivers its record, which the loop continuation emits.  As long as no
further start succeeds, the number of message events emitted is bounded
by the number of in-flight consume chains at stop time (one for the
single loop the source starts), so at most one message event can arrive
after stop. -/
theorem stop_bounds_messages_by_inflight (evs : List PushEvent) :
    ∀ st : LoopState, st.sess.running = false →
      (∀ e ∈ evs, e ≠ PushEvent.client .start) →
      countMessages (runPush st evs).2 ≤ st.inflight := by
  induction evs with
  | nil =>
    intro st hrun hne
    simp [runPush, countMessages]
  | cons e rest ih =>
    intro st hrun hne
    have hne2 : ∀ e2 ∈ rest, e2 ≠ PushEvent.client .start :=
      fun e2 he2 => hne e2 (List.mem_cons_of_mem _ he2)
    cases e with
    | client ev =>
      have hev : ev ≠ Event.start := by
        intro hh
        exact hne (.client ev) (List.mem_cons_self _ _) (by rw [hh])
      have hrun2 : (step st.sess ev).state.running = false :=
        step_preserves_not_running st.sess ev hev hrun
      have hinflight :
          (pushStep st (.client ev)).1.inflight = st.inflight := by
        cases ev with
        | start => exact absurd rfl hev
        | subscribe arg => rfl
        | filter f => rfl
        | consume polls => rfl
        | stop => rfl
        | disconnect => rfl
      have hsess :
          (pushStep st (.client ev)).1.sess = (step st.sess ev).state := rfl
      have heff :
          (pushStep st (.client ev)).2 = (step st.sess ev).effects := rfl
      have hrec := ih (pushStep st (.client ev)).1
        (by rw [hsess]; exact hrun2) hne2
      have hzero := step_no_message_effect st.sess ev
      simp only [runPush, heff]
      simp only [countMessages, List.countP_append] at hrec hzero ⊢
      rw [hinflight] at hrec
      omega
    | deliver m =>
      cases hin : st.inflight with
      | zero =>
        have hst : pushStep st (.deliver m) = (st, []) := by
          simp [pushStep, hin]
        simp only [runPush, hst, List.nil_append]
        exact hin ▸ ih st hrun hne2
      | succ n =>
        have hst : pushStep st (.deliver m) =
            (⟨st.sess, n⟩, [.emitMessage m]) := by
          simp [pushStep, hin, hrun]
        have hrec := ih ⟨st.sess, n⟩ hrun hne2
        simp only [runPush, hst, List.singleton_append]
        simp only [countMessages, List.countP_cons] at hrec ⊢
        simp only [if_true]
        omega

/-- C4 amended witness: a stopped demo session with one in-flight
consume chain emits at most one message however many in-flight
resolutions arrive. -/
theorem stop_bounds_messages_by_inflight_witness :
    countMessages (runPush ⟨demoSubscribedSession, 1⟩
        [.deliver (.str "a"), .deliver (.str "b")]).2 ≤ 1 :=
  stop_bounds_messages_by_inflight
    [.deliver (.str "a"), .deliver (.str "b")] ⟨demoSubscribedSession, 1⟩
    rfl
    (by
      intro e he
      simp only [List.mem_cons, List.not_mem_nil, or_false] at he
      rcases he with rfl | rfl
      · exact nofun
      · exact nofun)

/-- C4 counterexample: with the loop running and one consume in flight,
stop clears running, yet when the in-flight poll then resolves, the
loop continuation still emits its message: a message event arrives
after stop, so an in-flight record is not dropped without emission. -/
theorem message_emitted_after_stop :
    (pushStep demoRunningLoop (.client .stop)).1.sess.running = false ∧
    (runPush demoRunningLoop [.client .stop, .deliver (.str "m")]).2 =
      [.emitMessage (.str "m")] :=
  ⟨rfl, rfl⟩

end Kasocki
